import Mathlib

/-!
Verification of the trade-flow broker import/sync pipeline.

A shallow embedding of the CSV-import edge functions
(`import-groww-csv`, the combined auto-detect importer, the plain
`import-zerodha-csv` handler, the preview validators of the CSV import
dialog) and of the `sync-zerodha-trades` order filter.

Modelling conventions:
* JavaScript numbers are exact fractions (`JSRat`), `NaN` is `Option.none`.
  Binary-float rounding and `Infinity` are outside the model; no theorem below
  depends on either.
* A CSV row is an association list from column header to cell string, matching
  rows produced by `Papa.parse(file, {header: true})`.
* `row['k1'] || row['k2'] || dflt` is `probe`: the first present, non-empty
  cell wins (JS string truthiness).
* Template literals such as `${sym}_${date}_${price}_${qty}` are string
  concatenation; number interpolation uses a decimal printer that agrees with
  JS on integers (the only case any proof evaluates).
* The request handlers' try/catch around row processing can only fire on
  malformed (non-object) rows, which the row type excludes; the `errors`
  counter of the Groww handler (incremented solely in its catch block) is
  therefore constantly zero in the model.
-/

namespace TradeFlow

/-- An exact JS number as an unreduced fraction. The denominator is a power of
ten times a product of parsed denominators and is positive everywhere the
handlers can reach (every construction below yields `0 < den`); comparisons
cross-multiply, so no normalisation (and no kernel-opaque `Rat` arithmetic)
is ever needed. -/
structure JSRat where
  num : Int
  den : Nat
deriving Repr, DecidableEq

/-- JavaScript number: `none` models `NaN`. -/
abbrev JSNum := Option JSRat

/-- The integer `n` as a JS number. -/
def jsInt (n : Int) : JSNum := some ⟨n, 1⟩

/-- The rational value of a `JSRat` (specification-level view; proofs about
concrete runs stay on the pair representation). -/
def JSRat.toRat (r : JSRat) : ℚ := (r.num : ℚ) / (r.den : ℚ)

/-- One CSV row: association list from column header to cell value. -/
abbrev Row := List (String × String)

/-- JS property access `row[k]` (first binding wins; JS objects have unique keys). -/
def lookupCell (row : Row) (k : String) : Option String :=
  (row.find? (fun p => p.1 = k)).map (·.2)

/-- `String(row[k1] || row[k2] || ... || dflt)`: first present non-empty cell,
else the default (empty strings are falsy in JS). -/
def probe (row : Row) (keys : List String) (dflt : String) : String :=
  match keys with
  | [] => dflt
  | k :: ks =>
    match lookupCell row k with
    | some v => if v = "" then probe row ks dflt else v
    | none => probe row ks dflt

/-- Value of a decimal digit character. -/
def digitVal (c : Char) : Nat := c.toNat - '0'.toNat

/-- Decimal digits to a natural number. -/
def digitsToNat (cs : List Char) : Nat :=
  cs.foldl (fun a c => a * 10 + digitVal c) 0

/-- Exponent suffix of a JS float literal: `e`/`E`, optional sign, digits.
A malformed exponent is ignored (JS `parseFloat("1e")` is `1`). -/
def expVal (cs : List Char) : Int :=
  match cs with
  | 'e' :: rest | 'E' :: rest =>
    let (neg, rest) :=
      match rest with
      | '-' :: r => (true, r)
      | '+' :: r => (false, r)
      | _ => (false, rest)
    let ds := rest.takeWhile Char.isDigit
    if ds.isEmpty then 0
    else if neg then -(digitsToNat ds : Int) else (digitsToNat ds : Int)
  | _ => 0

/-- JS `parseFloat`: skip leading whitespace, optional sign, decimal mantissa,
optional exponent; the longest valid prefix is parsed, `NaN` if none. The
result is exact (JS binary-float rounding is outside the model; every number a
theorem below evaluates is exactly representable). -/
def jsParseFloat (s : String) : JSNum :=
  let cs := s.toList.dropWhile Char.isWhitespace
  let (neg, cs) :=
    match cs with
    | '-' :: r => (true, r)
    | '+' :: r => (false, r)
    | _ => (false, cs)
  let intD := cs.takeWhile Char.isDigit
  let afterInt := cs.dropWhile Char.isDigit
  let (fracD, afterFrac) :=
    match afterInt with
    | '.' :: r => (r.takeWhile Char.isDigit, r.dropWhile Char.isDigit)
    | _ => ([], afterInt)
  if intD.isEmpty && fracD.isEmpty then none
  else
    let base : Nat := digitsToNat intD * 10 ^ fracD.length + digitsToNat fracD
    let (n, d) : Nat × Nat :=
      match expVal afterFrac with
      | Int.ofNat k => (base * 10 ^ k, 10 ^ fracD.length)
      | Int.negSucc k => (base, 10 ^ fracD.length * 10 ^ (k + 1))
    some ⟨if neg then -(n : Int) else (n : Int), d⟩

/-- JS `a > b` for a number against an integer literal: false when `a` is `NaN`. -/
def jsGt (a : JSNum) (b : Int) : Bool :=
  match a with
  | none => false
  | some r => b * r.den < r.num

/-- JS `a < b` on two numbers: false when either is `NaN`. -/
def jsLt (a b : JSNum) : Bool :=
  match a, b with
  | some x, some y => x.num * y.den < y.num * x.den
  | _, _ => false

/-- JS `a <= b` against an integer literal: false when `a` is `NaN`. -/
def jsLe (a : JSNum) (b : Int) : Bool :=
  match a with
  | none => false
  | some r => r.num ≤ b * r.den

/-- JS `a === b` against an integer literal: false when `a` is `NaN`. -/
def jsEq (a : JSNum) (b : Int) : Bool :=
  match a with
  | none => false
  | some r => r.num = b * r.den

/-- JS numeric falsiness `!a`: true for `0` and `NaN`. -/
def jsFalsyNum (a : JSNum) : Bool :=
  match a with
  | none => true
  | some r => r.num = 0

/-- Value-level equality of two JS numbers (`none` only equals `none`);
used to state properties about computed prices without fixing a
representative fraction. -/
def jsNumEqv (a b : JSNum) : Bool :=
  match a, b with
  | some x, some y => x.num * y.den = y.num * x.den
  | none, none => true
  | _, _ => false

/-- JS `a / b` (`NaN` propagates). Division by zero is unreachable here —
every use is guarded by a positivity test on the divisor — so the
denominator stays positive. -/
def jsDiv (a b : JSNum) : JSNum :=
  match a, b with
  | some x, some y =>
    if y.num < 0 then some ⟨-(x.num * y.den), x.den * y.num.natAbs⟩
    else some ⟨x.num * y.den, x.den * y.num.natAbs⟩
  | _, _ => none

/-- JS `Math.abs` (`Math.abs(NaN)` is `NaN`). -/
def jsAbs (a : JSNum) : JSNum := a.map (fun r => ⟨|r.num|, r.den⟩)

/-- JS `s.trim()`: strip whitespace from both ends (char-list implementation,
so that proofs can evaluate it). -/
def jsTrim (s : String) : String :=
  String.mk (((s.toList.dropWhile Char.isWhitespace).reverse.dropWhile
    Char.isWhitespace).reverse)

/-- JS `s.toUpperCase()` (ASCII, which covers every header and symbol here). -/
def jsToUpper (s : String) : String := String.mk (s.toList.map Char.toUpper)

/-- JS `s.toLowerCase()` (ASCII). -/
def jsToLower (s : String) : String := String.mk (s.toList.map Char.toLower)

/-- `pat` occurs as a contiguous run of `s`. -/
def charsInfix (pat : List Char) : List Char → Bool
  | [] => pat.isEmpty
  | c :: rest => pat.isPrefixOf (c :: rest) || charsInfix pat rest

/-- JS `haystack.includes(needle)`. -/
def jsIncludes (s pat : String) : Bool := charsInfix pat.toList s.toList

/-- Decimal digits of a natural number (fuel-driven so the kernel can unfold it). -/
def natToCharsAux : Nat → Nat → List Char
  | 0, _ => []
  | fuel + 1, n =>
    if n < 10 then [Nat.digitChar n]
    else natToCharsAux fuel (n / 10) ++ [Nat.digitChar (n % 10)]

/-- Decimal rendering of a natural number. -/
def natToString (n : Nat) : String := String.mk (natToCharsAux (n + 1) n)

/-- Fraction digits of `num/den` by long division, up to the given fuel. -/
def fracChars : Nat → Nat → Nat → List Char
  | 0, _, _ => []
  | fuel + 1, num, den =>
    if num = 0 then []
    else Nat.digitChar (num * 10 / den) :: fracChars fuel (num * 10 % den) den

/-- Decimal rendering of a `JSRat`, matching JS template interpolation on
integer values (the only case any proof evaluates); terminating decimals are
exact, repeating expansions are truncated. -/
def ratToString (r : JSRat) : String :=
  let sign := if r.num < 0 then "-" else ""
  let n := r.num.natAbs
  let d := r.den
  if n % d = 0 then sign ++ natToString (n / d)
  else sign ++ natToString (n / d) ++ "." ++ String.mk (fracChars 30 (n % d) d)

/-- JS template interpolation of a number (`${NaN}` is `"NaN"`). -/
def jsNumToString : JSNum → String
  | none => "NaN"
  | some r => ratToString r

/-- JS `${p || 'N/A'}` on a number: `0` and `NaN` render as `N/A`. -/
def jsNumOrNA (p : JSNum) : String :=
  if jsFalsyNum p then "N/A" else jsNumToString p

/-! Trade category, duplicated verbatim in both import handlers
(`determineCategory`). -/

/-- `determineCategory`: futures when the upper-cased symbol contains
`FUT`/`FUTURE`; else options when it contains `CE`/`PE`/`CALL`/`PUT`/`OPT`;
else equity. -/
def determineCategory (symbol : String) : String :=
  let u := jsToUpper symbol
  if jsIncludes u "FUT" || jsIncludes u "FUTURE" then "futures"
  else if jsIncludes u "CE" || jsIncludes u "PE" ||
      jsIncludes u "CALL" || jsIncludes u "PUT" ||
      jsIncludes u "OPT" then "options"
  else "equity"

/-! Groww date normalization (`parseDateString`, identical in the standalone
Groww handler and the auto-detect handler). The JS regexes are unanchored, so
matching scans for the leftmost occurrence. -/

/-- Match `/(\d{2})-(\d{2})-(\d{4})/` at the head of the character list,
returning the three capture groups `(dd, mm, yyyy)`. -/
def matchDDMMYYYY : List Char → Option (String × String × String)
  | a :: b :: '-' :: c :: d :: '-' :: e :: f :: g :: h :: _ =>
    if a.isDigit && b.isDigit && c.isDigit && d.isDigit &&
        e.isDigit && f.isDigit && g.isDigit && h.isDigit then
      some (String.mk [a, b], String.mk [c, d], String.mk [e, f, g, h])
    else none
  | _ => none

/-- Leftmost match of `/(\d{2})-(\d{2})-(\d{4})/`. -/
def scanDDMMYYYY : List Char → Option (String × String × String)
  | [] => none
  | c :: rest =>
    match matchDDMMYYYY (c :: rest) with
    | some r => some r
    | none => scanDDMMYYYY rest

/-- Match `\s+([A-Za-z]{3})\s+(\d{4})` at the head of the list, returning the
month and year captures. The month is exactly three letters, so the character
after it must be whitespace. -/
def matchAfterDay : List Char → Option (String × String)
  | w :: rest =>
    if w.isWhitespace then
      let rest := rest.dropWhile Char.isWhitespace
      match rest with
      | m1 :: m2 :: m3 :: rest2 =>
        if m1.isAlpha && m2.isAlpha && m3.isAlpha then
          match rest2 with
          | w2 :: rest3 =>
            if w2.isWhitespace then
              let rest4 := rest3.dropWhile Char.isWhitespace
              match rest4 with
              | y1 :: y2 :: y3 :: y4 :: _ =>
                if y1.isDigit && y2.isDigit && y3.isDigit && y4.isDigit then
                  some (String.mk [m1, m2, m3], String.mk [y1, y2, y3, y4])
                else none
              | _ => none
            else none
          | _ => none
        else none
      | _ => none
    else none
  | [] => none

/-- Match `/(\d{1,2})\s+([A-Za-z]{3})\s+(\d{4})/` at the head of the list.
The greedy `\d{1,2}` tries two digits first; backtracking to one digit can
only matter when the second character is not a digit, because `\s+` never
matches a digit. -/
def matchDMMMYYYYAt : List Char → Option (String × String × String)
  | a :: b :: rest =>
    if a.isDigit then
      if b.isDigit then
        (matchAfterDay rest).map (fun p => (String.mk [a, b], p.1, p.2))
      else
        (matchAfterDay (b :: rest)).map (fun p => (String.mk [a], p.1, p.2))
    else none
  | _ => none

/-- Leftmost match of `/(\d{1,2})\s+([A-Za-z]{3})\s+(\d{4})/`. -/
def scanDMMMYYYY : List Char → Option (String × String × String)
  | [] => none
  | c :: rest =>
    match matchDMMMYYYYAt (c :: rest) with
    | some r => some r
    | none => scanDMMMYYYY rest

/-- The handler's `monthMap`: exact-case three-letter English month
abbreviations only. -/
def monthMap : String → Option String
  | "Jan" => some "01" | "Feb" => some "02" | "Mar" => some "03"
  | "Apr" => some "04" | "May" => some "05" | "Jun" => some "06"
  | "Jul" => some "07" | "Aug" => some "08" | "Sep" => some "09"
  | "Oct" => some "10" | "Nov" => some "11" | "Dec" => some "12"
  | _ => none

/-- JS `day.padStart(2, '0')` for the 1–2 character day capture. -/
def padStart2 (s : String) : String :=
  if s.length < 2 then "0" ++ s else s

/-- `parseDateString`: empty/whitespace-only input gives `""`; a
`DD-MM-YYYY` or `D MMM YYYY` occurrence is rewritten to `YYYY-MM-DD`
(an unknown month abbreviation interpolates as the string `"undefined"`,
as `${monthMap[m]}` does in JS); anything else is returned unchanged. -/
def parseDateString (dateStr : String) : String :=
  if dateStr = "" || jsTrim dateStr = "" then ""
  else
    match scanDDMMYYYY dateStr.toList with
    | some (dd, mm, yyyy) => yyyy ++ "-" ++ mm ++ "-" ++ dd
    | none =>
      match scanDMMMYYYY dateStr.toList with
      | some (d, mon, yyyy) =>
        yyyy ++ "-" ++ ((monthMap mon).getD "undefined") ++ "-" ++ padStart2 d
      | none => dateStr

/-! Canonical shapes shared by the import handlers. -/

/-- The extractor output (`ParsedTrade` in the handlers). The standalone Groww
handler's variant has no `broker` field; it is carried here uniformly and set
to `"groww"` there, which its loop hard-codes anyway. -/
structure ParsedTrade where
  symbol : String
  tradeDate : String
  quantity : JSNum
  buyPrice : JSNum
  sellPrice : JSNum
  pnl : JSNum
  tradeType : String
  category : String
  broker : String
deriving Repr, DecidableEq

/-- A record pushed onto `transformedTrades` for bulk insert (`user_id` — an
opaque pass-through from the auth layer — is omitted). `none` models SQL
`null` for `exit_price` and `profit_loss`. -/
structure TradeRecord where
  symbol : String
  entry_date : String
  entry_price : JSNum
  exit_price : JSNum
  position_size : JSNum
  position_type : String
  profit_loss : JSNum
  tags : List String
  notes : String
deriving Repr, DecidableEq

/-- The per-call loop state. `acceptedKeys` instruments the model with the
identity key computed for each accepted trade at push time (the handlers
compute `tradeKey` but do not retain it); it is used only to state
deduplication properties. -/
structure ImportState where
  transformed : List TradeRecord := []
  acceptedKeys : List String := []
  skipped : Nat := 0
  errors : Nat := 0
  withPnL : Nat := 0
  withoutPnL : Nat := 0
deriving Repr, DecidableEq

/-- The identity key template
`${symbol}_${tradeDate}_${entryPrice}_${quantity}`. -/
def mkTradeKey (symbol tradeDate : String) (entryPrice quantity : JSNum) : String :=
  symbol ++ "_" ++ tradeDate ++ "_" ++ jsNumToString entryPrice ++ "_" ++ jsNumToString quantity

/-- `entryPrice = buyPrice > 0 ? buyPrice : sellPrice`. -/
def entryPriceOf (pt : ParsedTrade) : JSNum :=
  if jsGt pt.buyPrice 0 then pt.buyPrice else pt.sellPrice

/-- The identity key the import loops compute for a parsed trade (entry price
from the buy-else-sell rule, quantity as parsed — signed, not the absolute
value stored as `position_size`). -/
def candidateKey (pt : ParsedTrade) : String :=
  mkTradeKey pt.symbol pt.tradeDate (entryPriceOf pt) pt.quantity

/-- `hasPnL = !isNaN(pnl) && pnl !== 0`. -/
def hasPnLOf (pnl : JSNum) : Bool :=
  match pnl with
  | none => false
  | some r => !(r.num = 0 : Bool)

/-- `tags = [category, broker]` plus `'f&o'` for futures and for options. -/
def tagsOf (category broker : String) : List String :=
  let tags := [category, broker]
  let tags := if category = "futures" then tags ++ ["f&o"] else tags
  if category = "options" then tags ++ ["f&o"] else tags

/-- The JSON report (both response branches; the zero-accepted branch
hard-codes `imported`/`withPnL`/`withoutPnL` to `0`). -/
structure ImportReport where
  totalRows : Nat
  imported : Nat
  skipped : Nat
  errors : Nat
  withPnL : Nat
  withoutPnL : Nat
deriving Repr, DecidableEq

/-! The standalone Groww import handler (`import-groww-csv/index.ts`). -/

namespace GrowwImport

/-- Symbol column resolution of `parseGrowwRow`. -/
def growwSymbol (row : Row) : String :=
  jsTrim (probe row ["Stock name", "Name", "Scrip Name", "Symbol"] "")

/-- The header/summary-row guard of `parseGrowwRow` (this handler's variant
additionally rejects the literal header names and purely numeric symbols). -/
def isNonDataSymbol (symbol : String) : Bool :=
  symbol = "" ||
  symbol = "Stock name" ||
  symbol = "Scrip Name" ||
  jsIncludes symbol "Summary" ||
  jsIncludes symbol "Statement" ||
  jsIncludes symbol "Realised" ||
  jsIncludes symbol "Unrealised" ||
  jsIncludes symbol "Charges" ||
  jsIncludes symbol "Total" ||
  jsIncludes symbol "Disclaimer" ||
  jsIncludes symbol "P&L" ||
  jsIncludes symbol "Exchange" ||
  jsIncludes symbol "SEBI" ||
  jsIncludes symbol "STT" ||
  jsIncludes symbol "Stamp" ||
  jsIncludes symbol "IPFT" ||
  jsIncludes symbol "Brokerage" ||
  jsIncludes symbol "GST" ||
  jsIncludes symbol "Unique Client" ||
  jsIncludes symbol "trades" ||
  (!symbol.toList.isEmpty && symbol.toList.all Char.isDigit)

/-- `parseGrowwRow` of the standalone Groww handler. -/
def parseGrowwRow (row : Row) : Option ParsedTrade :=
  let symbol := growwSymbol row
  if isNonDataSymbol symbol then none
  else
    let quantity := jsParseFloat (probe row ["Quantity"] "0")
    let buyDateStr := jsTrim (probe row ["Buy date", "Buy Date"] "")
    let sellDateStr := jsTrim (probe row ["Sell date", "Sell Date"] "")
    let buyPrice := jsParseFloat (probe row ["Buy price", "Buy Price", "Avg Buy Price"] "0")
    let sellPrice := jsParseFloat (probe row ["Sell price", "Sell Price", "Avg Sell Price"] "0")
    let pnl := jsParseFloat (probe row ["Realised P&L", "Realized P&L", "P&L"] "0")
    let buyDate := parseDateString buyDateStr
    let sellDate := parseDateString sellDateStr
    let tradeDate := if buyDate = "" then sellDate else buyDate
    if tradeDate = "" || tradeDate.length < 8 then none
    else if symbol = "" || jsFalsyNum quantity ||
        (jsEq buyPrice 0 && jsEq sellPrice 0) then none
    else
      some { symbol := symbol, tradeDate := tradeDate, quantity := quantity,
             buyPrice := buyPrice, sellPrice := sellPrice, pnl := pnl,
             tradeType := if jsGt buyPrice 0 && jsGt sellPrice 0 then "both" else "unknown",
             category := determineCategory symbol, broker := "groww" }

/-- The body of one loop iteration, split on the extractor's verdict. A
rejected row (`none`) is skipped silently; the `errors` counter is touched
only by the unreachable catch block, so it never changes. -/
def processParsed (existingKeys : List String) (st : ImportState) :
    Option ParsedTrade → ImportState
  | none => st
  | some pt =>
    let tradeKey := candidateKey pt
    if tradeKey ∈ existingKeys then { st with skipped := st.skipped + 1 }
    else
      let hasPnL := hasPnLOf pt.pnl
      let positionType :=
        if pt.tradeType = "both" then
          if jsLt pt.buyPrice pt.sellPrice then "long" else "short"
        else "long"
      let record : TradeRecord :=
        { symbol := pt.symbol
          entry_date := pt.tradeDate
          entry_price := entryPriceOf pt
          exit_price := if jsGt pt.buyPrice 0 && jsGt pt.sellPrice 0 then pt.sellPrice else none
          position_size := jsAbs pt.quantity
          position_type := positionType
          profit_loss := if hasPnL then pt.pnl else none
          tags := tagsOf pt.category "groww"
          notes := "Imported from Groww\nCategory: " ++ pt.category ++
            "\nBuy: " ++ jsNumOrNA pt.buyPrice ++ " | Sell: " ++ jsNumOrNA pt.sellPrice }
      { st with
        transformed := st.transformed ++ [record]
        acceptedKeys := st.acceptedKeys ++ [tradeKey]
        withPnL := if hasPnL then st.withPnL + 1 else st.withPnL
        withoutPnL := if hasPnL then st.withoutPnL else st.withoutPnL + 1 }

/-- One iteration of the handler's row loop. -/
def processRow (existingKeys : List String) (st : ImportState) (row : Row) : ImportState :=
  processParsed existingKeys st (parseGrowwRow row)

/-- The whole row loop. -/
def run (existingKeys : List String) (rows : List Row) : ImportState :=
  rows.foldl (processRow existingKeys) {}

/-- Build the report exactly as the handler's two return branches do. -/
def report (existingKeys : List String) (rows : List Row) : ImportReport :=
  let st := run existingKeys rows
  if st.transformed.length = 0 then
    { totalRows := rows.length, imported := 0, skipped := st.skipped,
      errors := st.errors, withPnL := 0, withoutPnL := 0 }
  else
    { totalRows := rows.length, imported := st.transformed.length, skipped := st.skipped,
      errors := st.errors, withPnL := st.withPnL, withoutPnL := st.withoutPnL }

end GrowwImport

/-! The combined auto-detect import handler (Zerodha first, Groww fallback).
Its aggregate P&L-report branch stamps the current date; the model threads
that in as the `today` parameter. -/

namespace AutoImport

/-- Symbol column resolution of this handler's `parseZerodhaRow`. -/
def zSymbol (row : Row) : String :=
  jsTrim (probe row ["symbol", "Symbol", "SYMBOL", "scrip_name"] "")

/-- The summary/header guard of `parseZerodhaRow`. -/
def isZerodhaMarker (symbol : String) : Bool :=
  symbol = "" ||
  jsIncludes symbol "Summary" ||
  jsIncludes symbol "Charges" ||
  jsIncludes symbol "Client ID" ||
  jsIncludes symbol "P&L Statement" ||
  jsIncludes symbol "Other Debits"

/-- `Buy Value` column of `parseZerodhaRow`. -/
def zBuyValue (row : Row) : JSNum :=
  jsParseFloat (probe row ["Buy Value", "buy_value"] "0")

/-- `Sell Value` column of `parseZerodhaRow`. -/
def zSellValue (row : Row) : JSNum :=
  jsParseFloat (probe row ["Sell Value", "sell_value"] "0")

/-- Quantity column of `parseZerodhaRow`. -/
def zQuantity (row : Row) : JSNum :=
  jsParseFloat (probe row ["quantity", "Quantity", "qty"] "0")

/-- Realized-P&L column of `parseZerodhaRow`'s aggregate branch. -/
def zRealizedPnL (row : Row) : JSNum :=
  jsParseFloat (probe row ["Realized P&L", "Realised P&L", "pnl", "P&L", "profit_loss"] "0")

/-- `parseZerodhaRow`: aggregate P&L-report branch (buy/sell value and
quantity all positive, trade date stamped with today, prices derived by
division), else the tradebook branch (explicit date column required). -/
def parseZerodhaRow (today : String) (row : Row) : Option ParsedTrade :=
  let symbol := zSymbol row
  if isZerodhaMarker symbol then none
  else
    let buyValue := zBuyValue row
    let sellValue := zSellValue row
    let quantity := zQuantity row
    let realizedPnL := zRealizedPnL row
    if jsGt buyValue 0 && jsGt sellValue 0 && jsGt quantity 0 then
      some { symbol := symbol, tradeDate := today, quantity := quantity,
             buyPrice := jsDiv buyValue quantity, sellPrice := jsDiv sellValue quantity,
             pnl := realizedPnL, tradeType := "both",
             category := determineCategory symbol, broker := "zerodha" }
    else
      let tradeDate := jsTrim (probe row ["trade_date", "Trade date", "Date", "date"] "")
      let buyPrice := jsParseFloat (probe row ["trade_price", "Price", "price", "buy_price"] "0")
      let sellPrice := jsParseFloat (probe row ["sell_price", "Sell Price"] "0")
      let pnl := jsParseFloat (probe row ["pnl", "P&L", "profit_loss"] "0")
      let tradeType := jsToLower (probe row ["trade_type", "Type", "type"] "")
      if tradeDate = "" || jsFalsyNum quantity ||
          (jsEq buyPrice 0 && jsEq sellPrice 0) then none
      else
        some { symbol := symbol, tradeDate := tradeDate, quantity := quantity,
               buyPrice := buyPrice, sellPrice := sellPrice, pnl := pnl,
               tradeType := tradeType, category := determineCategory symbol,
               broker := "zerodha" }

/-- This handler's `parseGrowwRow` (identical to the standalone Groww
handler's except that it lacks the purely-numeric-symbol rejection). -/
def isGrowwMarker (symbol : String) : Bool :=
  symbol = "" ||
  jsIncludes symbol "Summary" ||
  jsIncludes symbol "Statement" ||
  jsIncludes symbol "Realised" ||
  jsIncludes symbol "Unrealised" ||
  jsIncludes symbol "Charges" ||
  jsIncludes symbol "Total" ||
  jsIncludes symbol "Disclaimer" ||
  jsIncludes symbol "P&L" ||
  jsIncludes symbol "Exchange" ||
  jsIncludes symbol "SEBI" ||
  jsIncludes symbol "STT" ||
  jsIncludes symbol "Stamp" ||
  jsIncludes symbol "IPFT" ||
  jsIncludes symbol "Brokerage" ||
  jsIncludes symbol "GST" ||
  jsIncludes symbol "Unique Client" ||
  jsIncludes symbol "trades" ||
  symbol = "Stock name" ||
  symbol = "Scrip Name"

/-- `parseGrowwRow` of the auto-detect handler. -/
def parseGrowwRow (row : Row) : Option ParsedTrade :=
  let symbol := jsTrim (probe row ["Stock name", "Name", "Scrip Name", "Symbol"] "")
  if isGrowwMarker symbol then none
  else
    let quantity := jsParseFloat (probe row ["Quantity"] "0")
    let buyDateStr := jsTrim (probe row ["Buy date", "Buy Date"] "")
    let sellDateStr := jsTrim (probe row ["Sell date", "Sell Date"] "")
    let buyPrice := jsParseFloat (probe row ["Buy price", "Buy Price", "Avg Buy Price"] "0")
    let sellPrice := jsParseFloat (probe row ["Sell price", "Sell Price", "Avg Sell Price"] "0")
    let pnl := jsParseFloat (probe row ["Realised P&L", "Realized P&L", "P&L"] "0")
    let buyDate := parseDateString buyDateStr
    let sellDate := parseDateString sellDateStr
    let tradeDate := if buyDate = "" then sellDate else buyDate
    if tradeDate = "" || tradeDate.length < 8 then none
    else if symbol = "" || jsFalsyNum quantity ||
        (jsEq buyPrice 0 && jsEq sellPrice 0) then none
    else
      some { symbol := symbol, tradeDate := tradeDate, quantity := quantity,
             buyPrice := buyPrice, sellPrice := sellPrice, pnl := pnl,
             tradeType := if jsGt buyPrice 0 && jsGt sellPrice 0 then "both" else "unknown",
             category := determineCategory symbol, broker := "groww" }

/-- Try Zerodha first, then Groww — the format auto-detection. -/
def parseRow (today : String) (row : Row) : Option ParsedTrade :=
  match parseZerodhaRow today row with
  | some pt => some pt
  | none => parseGrowwRow row

/-- The position-type assignment of this handler's loop. -/
def computePositionType (tradeType : String) (buyPrice sellPrice : JSNum) : String :=
  if tradeType = "both" then
    if jsLt buyPrice sellPrice then "long" else "short"
  else if jsIncludes tradeType "sell" || jsIncludes tradeType "short" then "short"
  else "long"

/-- The body of one loop iteration, split on the auto-detection verdict: a
row failing both parsers is recorded as an error; a key already in the
pre-fetched set is counted as skipped; everything else is accepted. -/
def processParsed (existingKeys : List String) (st : ImportState) :
    Option ParsedTrade → ImportState
  | none => { st with errors := st.errors + 1 }
  | some pt =>
    let tradeKey := candidateKey pt
    if tradeKey ∈ existingKeys then { st with skipped := st.skipped + 1 }
    else
      let hasPnL := hasPnLOf pt.pnl
      let record : TradeRecord :=
        { symbol := pt.symbol
          entry_date := pt.tradeDate
          entry_price := entryPriceOf pt
          exit_price := if jsGt pt.buyPrice 0 && jsGt pt.sellPrice 0 then pt.sellPrice else none
          position_size := jsAbs pt.quantity
          position_type := computePositionType pt.tradeType pt.buyPrice pt.sellPrice
          profit_loss := if hasPnL then pt.pnl else none
          tags := tagsOf pt.category pt.broker
          notes := "Imported from " ++ pt.broker ++ "\nCategory: " ++ pt.category ++
            "\nBuy: " ++ jsNumOrNA pt.buyPrice ++ " | Sell: " ++ jsNumOrNA pt.sellPrice }
      { st with
        transformed := st.transformed ++ [record]
        acceptedKeys := st.acceptedKeys ++ [tradeKey]
        withPnL := if hasPnL then st.withPnL + 1 else st.withPnL
        withoutPnL := if hasPnL then st.withoutPnL else st.withoutPnL + 1 }

/-- One iteration of the row loop. -/
def processRow (today : String) (existingKeys : List String)
    (st : ImportState) (row : Row) : ImportState :=
  processParsed existingKeys st (parseRow today row)

/-- The whole row loop. -/
def run (today : String) (existingKeys : List String) (rows : List Row) : ImportState :=
  rows.foldl (processRow today existingKeys) {}

/-- Build the report exactly as the handler's two return branches do. -/
def report (today : String) (existingKeys : List String) (rows : List Row) : ImportReport :=
  let st := run today existingKeys rows
  if st.transformed.length = 0 then
    { totalRows := rows.length, imported := 0, skipped := st.skipped,
      errors := st.errors, withPnL := 0, withoutPnL := 0 }
  else
    { totalRows := rows.length, imported := st.transformed.length, skipped := st.skipped,
      errors := st.errors, withPnL := st.withPnL, withoutPnL := st.withoutPnL }

end AutoImport

/-! The client-side preview validator of the CSV import dialog
(`validateAndParseRow`, format-agnostic variant). -/

namespace PreviewA

/-- The validator's output row (the `rowIndex`/`rawData` pass-throughs and the
broker column are omitted; no claim concerns them). -/
structure PreviewTrade where
  valid : Bool
  symbol : String
  quantity : JSNum
  buyPrice : JSNum
  sellPrice : JSNum
  pnl : JSNum
  category : String
  issues : List String
deriving Repr, DecidableEq

/-- Two consecutive ASCII letters somewhere in the character list. -/
def hasTwoLettersAux : List Char → Bool
  | a :: b :: rest => (a.isAlpha && b.isAlpha) || hasTwoLettersAux (b :: rest)
  | _ => false

/-- `/[A-Za-z]{2,}/.test s`: two consecutive ASCII letters somewhere. -/
def hasTwoLetters (s : String) : Bool := hasTwoLettersAux s.toList

/-- Direct buy-price column of this validator. -/
def directBuyPrice (row : Row) : JSNum :=
  jsParseFloat (probe row ["Buy Price", "Buy price", "Avg Buy Price"] "0")

/-- Direct sell-price column of this validator. -/
def directSellPrice (row : Row) : JSNum :=
  jsParseFloat (probe row ["Sell Price", "Sell price", "Avg Sell Price"] "0")

/-- Aggregate buy-value column of this validator. -/
def buyValueCol (row : Row) : JSNum :=
  jsParseFloat (probe row ["Buy Value", "buy_value"] "0")

/-- Aggregate sell-value column of this validator. -/
def sellValueCol (row : Row) : JSNum :=
  jsParseFloat (probe row ["Sell Value", "sell_value"] "0")

/-- Quantity column of this validator. -/
def quantityCol (row : Row) : JSNum :=
  jsParseFloat (probe row ["Quantity", "quantity", "Qty"] "0")

/-- `validateAndParseRow` of the dialog: derives a per-unit price from the
aggregate value only when the direct price column resolved to exactly `0`,
flags non-positive quantities and missing prices, and classifies the category
with its own two-`if` variant (no `OPT` marker; an options marker overrides a
futures marker). -/
def validateAndParseRow (row : Row) : PreviewTrade :=
  let symbol := jsTrim (probe row ["Symbol", "symbol", "Stock name", "Name", "Scrip Name"] "")
  let symbolBad := symbol = "" || !hasTwoLetters symbol
  let quantity := quantityCol row
  let buyPrice := directBuyPrice row
  let sellPrice := directSellPrice row
  let buyValue := buyValueCol row
  let sellValue := sellValueCol row
  let pnl := jsParseFloat (probe row ["Realized P&L", "Realised P&L", "P&L"] "0")
  let finalBuyPrice :=
    if jsGt buyValue 0 && jsGt quantity 0 && jsEq buyPrice 0 then jsDiv buyValue quantity
    else buyPrice
  let finalSellPrice :=
    if jsGt sellValue 0 && jsGt quantity 0 && jsEq sellPrice 0 then jsDiv sellValue quantity
    else sellPrice
  let qtyBad := jsLe quantity 0
  let priceBad := jsLe finalBuyPrice 0 && jsLe finalSellPrice 0
  let u := jsToUpper symbol
  let category :=
    let c := "equity"
    let c := if jsIncludes u "FUT" || jsIncludes u "FUTURE" then "futures" else c
    if jsIncludes u "CE" || jsIncludes u "PE" ||
        jsIncludes u "CALL" || jsIncludes u "PUT" then "options" else c
  { valid := !(symbolBad || qtyBad || priceBad)
    symbol := symbol
    quantity := quantity
    buyPrice := finalBuyPrice
    sellPrice := finalSellPrice
    pnl := pnl
    category := category
    issues :=
      (if symbolBad then ["Invalid or missing symbol"] else []) ++
      (if qtyBad then ["Invalid quantity"] else []) ++
      (if priceBad then ["Missing price data"] else []) }

end PreviewA

/-! The format-parameterised preview validator (`validateAndParseRow(row,
index, format)` of the newer dialog). Only its Zerodha branch and the fields
the claims touch are modelled. -/

namespace PreviewB

/-- Quantity column of the Zerodha branch. -/
def zqty (row : Row) : JSNum :=
  jsParseFloat (probe row ["Quantity", "quantity", "Qty", "QTY"] "0")

/-- Aggregate buy-value column of the Zerodha branch. -/
def zBuyValue (row : Row) : JSNum :=
  jsParseFloat (probe row ["Buy Value", "buy_value", "BUY VALUE"] "0")

/-- Aggregate sell-value column of the Zerodha branch. -/
def zSellValue (row : Row) : JSNum :=
  jsParseFloat (probe row ["Sell Value", "sell_value", "SELL VALUE"] "0")

/-- The Zerodha-branch buy price: whenever the aggregate value and the
quantity are positive the derived `value ÷ quantity` is used — the direct
price column is not consulted at all in that case. -/
def zerodhaBuyPrice (row : Row) : JSNum :=
  let quantity := zqty row
  let buyValue := zBuyValue row
  if jsGt buyValue 0 && jsGt quantity 0 then jsDiv buyValue quantity
  else jsParseFloat (probe row ["Buy Price", "Buy price"] "0")

/-- The Zerodha-branch sell price, symmetric to `zerodhaBuyPrice`. -/
def zerodhaSellPrice (row : Row) : JSNum :=
  let quantity := zqty row
  let sellValue := zSellValue row
  if jsGt sellValue 0 && jsGt quantity 0 then jsDiv sellValue quantity
  else jsParseFloat (probe row ["Sell Price", "Sell price"] "0")

end PreviewB

/-! The Zerodha API sync (`sync-zerodha-trades/index.ts`): completed-order
filter and the best-effort positions fetch. -/

namespace Sync

/-- A Zerodha order as returned by the orders endpoint (fields the handler
reads). -/
structure ZerodhaOrder where
  order_id : String
  exchange : String
  tradingsymbol : String
  product : String
  average_price : JSNum
  filled_quantity : JSNum
  transaction_type : String
  order_timestamp : String
  status : String
  order_type : String
deriving Repr, DecidableEq

/-- A Zerodha day-position (fields the handler reads). -/
structure ZerodhaPosition where
  tradingsymbol : String
  exchange : String
  product : String
  pnl : JSNum
deriving Repr, DecidableEq

/-- The filter inside `fetchZerodhaOrders`:
`order.status === 'COMPLETE' && order.filled_quantity > 0`. -/
def filterCompleted (orders : List ZerodhaOrder) : List ZerodhaOrder :=
  orders.filter (fun o => o.status = "COMPLETE" && jsGt o.filled_quantity 0)

/-- `${tradingsymbol}_${exchange}_${product}`. -/
def posKey (tradingsymbol exchange product : String) : String :=
  tradingsymbol ++ "_" ++ exchange ++ "_" ++ product

/-- `positionsMap` built by `Map.set` in iteration order: a later entry for
the same key overwrites an earlier one, so lookup takes the last match. -/
def mapGet (entries : List (String × JSNum)) (k : String) : Option JSNum :=
  (entries.reverse.find? (fun p => p.1 = k)).map (·.2)

/-- The positions fetch is wrapped in try/catch: `none` models the fetch
failing, in which case the map stays empty and the sync continues. -/
def buildPositionsMap (fetched : Option (List ZerodhaPosition)) : List (String × JSNum) :=
  match fetched with
  | none => []
  | some ps => ps.map (fun p => (posKey p.tradingsymbol p.exchange p.product, p.pnl))

/-- A record the sync pushes for insert (`user_id` omitted as before). -/
structure SyncRecord where
  symbol : String
  entry_date : String
  entry_price : JSNum
  position_size : JSNum
  position_type : String
  profit_loss : JSNum
  notes : String
deriving Repr, DecidableEq

/-- Map one completed order to a record; `pnl || null` makes a zero or absent
position P&L store as SQL `null`. -/
def toRecord (positionsMap : List (String × JSNum)) (zt : ZerodhaOrder) : SyncRecord :=
  let pnl := mapGet positionsMap (posKey zt.tradingsymbol zt.exchange zt.product)
  { symbol := zt.tradingsymbol
    entry_date := zt.order_timestamp
    entry_price := zt.average_price
    position_size := zt.filled_quantity
    position_type := if zt.transaction_type = "BUY" then "long" else "short"
    profit_loss :=
      match pnl with
      | none => none
      | some v => if jsFalsyNum v then none else v
    notes := "Imported from Zerodha\nOrder ID: " ++ zt.order_id ++
      "\nExchange: " ++ zt.exchange ++ "\nProduct: " ++ zt.product ++
      "\nStatus: " ++ zt.status ++ "\nOrder Type: " ++ zt.order_type }

/-- The whole sync mapping: filter completed orders, drop known order ids,
attach best-effort P&L. -/
def syncTrades (allOrders : List ZerodhaOrder)
    (positionsFetch : Option (List ZerodhaPosition))
    (existingIds : List String) : List SyncRecord :=
  let positionsMap := buildPositionsMap positionsFetch
  ((filterCompleted allOrders).filter (fun zt => !(zt.order_id ∈ existingIds : Bool))).map
    (toRecord positionsMap)

/-- A sync record with its P&L forgotten, for comparing the with- and
without-positions runs. -/
def stripPnL (r : SyncRecord) : SyncRecord := { r with profit_loss := none }

end Sync

/-! Concrete inputs used by the theorems below. -/

/-- A valid Groww equity row; two copies of it form a batch with an internal
duplicate. -/
def rDup : Row :=
  [("Stock name", "ABC"), ("Quantity", "10"), ("Buy date", "15-03-2024"),
   ("Buy price", "100")]

/-- A batch row whose symbol is the non-data marker `Summary`. -/
def rSummary : Row := [("Symbol", "Summary")]

/-- A Groww-shaped row with a negative quantity. -/
def rNegQty : Row :=
  [("Stock name", "XYZ"), ("Quantity", "-10"), ("Buy date", "15-03-2024"),
   ("Buy price", "100")]

/-- An aggregate row with no direct price column: the derived-price scenario
of the spec. -/
def rDerived : Row := [("Symbol", "TCS"), ("Buy Value", "10000"), ("Quantity", "100")]

/-- An aggregate row whose direct buy-price column resolved to a negative
number. -/
def rNegDirect : Row :=
  [("Symbol", "TCS"), ("Buy Price", "-5"), ("Buy Value", "10000"), ("Quantity", "100")]

/-- A Groww-shaped row whose buy date is unparseable but 10 characters long. -/
def rBadDate : Row :=
  [("Stock name", "XYZ"), ("Quantity", "10"), ("Buy date", "not-a-date"),
   ("Buy price", "100")]

/-- The spec's Zerodha scenario row (no trade-date column). -/
def rTCS : Row :=
  [("Symbol", "TCS"), ("Quantity", "10"), ("Buy Price", "3400"),
   ("Sell Price", "3450"), ("Realised P&L", "500")]

/-- An aggregate P&L-report row (buy value, sell value and quantity positive). -/
def rAgg : Row :=
  [("Symbol", "INFY"), ("Buy Value", "10000"), ("Sell Value", "11000"),
   ("Quantity", "100")]

/-- An order with status OPEN and a positive filled quantity. -/
def openOrder : Sync.ZerodhaOrder :=
  { order_id := "X1", exchange := "NSE", tradingsymbol := "TCS", product := "MIS",
    average_price := jsInt 100, filled_quantity := jsInt 5, transaction_type := "BUY",
    order_timestamp := "2024-01-01T10:00:00", status := "OPEN", order_type := "MARKET" }

/-- A completed order. -/
def completeOrder : Sync.ZerodhaOrder :=
  { order_id := "X2", exchange := "NSE", tradingsymbol := "INFY", product := "CNC",
    average_price := jsInt 1500, filled_quantity := jsInt 3, transaction_type := "SELL",
    order_timestamp := "2024-01-01T11:00:00", status := "COMPLETE", order_type := "LIMIT" }

/-- A day position carrying P&L for `completeOrder`. -/
def infyPosition : Sync.ZerodhaPosition :=
  { tradingsymbol := "INFY", exchange := "NSE", product := "CNC", pnl := jsInt 250 }

/-! ## Claim C3 — category classification -/

/-- C3, counterexample. The claim asserts that symbol `"RELIANCE"` yields
category `"equity"`, but `"RELIANCE"` contains the substring `"CE"`, so
`determineCategory` classifies it as `"options"`. -/
theorem C3_counterexample :
    determineCategory "RELIANCE" = "options" ∧ determineCategory "RELIANCE" ≠ "equity" := by
  decide

/-- C3, amended. The category is a function of the upper-cased symbol:
`"futures"` exactly when it contains `FUT` or `FUTURE`; otherwise `"options"`
exactly when it contains `CE`, `PE`, `CALL`, `PUT` or `OPT`; otherwise
`"equity"`. `"NIFTY24JUNFUT"` is futures and `"BANKNIFTY24500CE"` is options
as claimed, but `"RELIANCE"` (which contains `CE`) is options, not equity. -/
theorem C3_amended :
    (∀ s : String,
      (determineCategory s = "futures" ↔
        (jsIncludes (jsToUpper s) "FUT" || jsIncludes (jsToUpper s) "FUTURE") = true) ∧
      (determineCategory s = "options" ↔
        ((jsIncludes (jsToUpper s) "FUT" || jsIncludes (jsToUpper s) "FUTURE") = false ∧
         (jsIncludes (jsToUpper s) "CE" || jsIncludes (jsToUpper s) "PE" ||
          jsIncludes (jsToUpper s) "CALL" || jsIncludes (jsToUpper s) "PUT" ||
          jsIncludes (jsToUpper s) "OPT") = true)) ∧
      (determineCategory s = "equity" ↔
        ((jsIncludes (jsToUpper s) "FUT" || jsIncludes (jsToUpper s) "FUTURE") = false ∧
         (jsIncludes (jsToUpper s) "CE" || jsIncludes (jsToUpper s) "PE" ||
          jsIncludes (jsToUpper s) "CALL" || jsIncludes (jsToUpper s) "PUT" ||
          jsIncludes (jsToUpper s) "OPT") = false))) ∧
    determineCategory "NIFTY24JUNFUT" = "futures" ∧
    determineCategory "BANKNIFTY24500CE" = "options" ∧
    determineCategory "RELIANCE" = "options" := by
  refine ⟨?_, by decide, by decide, by decide⟩
  intro s
  simp only [determineCategory]
  cases hf : (jsIncludes (jsToUpper s) "FUT" || jsIncludes (jsToUpper s) "FUTURE") <;>
    cases ho : (jsIncludes (jsToUpper s) "CE" || jsIncludes (jsToUpper s) "PE" ||
      jsIncludes (jsToUpper s) "CALL" || jsIncludes (jsToUpper s) "PUT" ||
      jsIncludes (jsToUpper s) "OPT") <;>
    simp [hf, ho]

/-! ## Claim C4 — the extractor validity gate -/

/-- C4, counterexample. The claim says every parsed candidate with
quantity ≤ 0 is rejected, but the gate tests JS falsiness (`!quantity`), which
a negative quantity passes: a Groww row with `Quantity = "-10"` is extracted
successfully with quantity `-10`. -/
theorem C4_counterexample :
    AutoImport.parseGrowwRow rNegQty ≠ none ∧
    (AutoImport.parseGrowwRow rNegQty).map ParsedTrade.quantity =
      some (some ⟨-10, 1⟩) := by
  decide

/-- C4, amended. Extraction returns null when the quantity is `0` or `NaN`
(JS-falsy) — not for negative quantities — and every successful extraction has
a non-falsy quantity, a non-empty trade date of length at least 8, and not
both prices exactly `0` (negative prices also pass). -/
theorem C4_amended :
    (∀ row, jsFalsyNum (jsParseFloat (probe row ["Quantity"] "0")) = true →
      AutoImport.parseGrowwRow row = none) ∧
    (∀ row pt, AutoImport.parseGrowwRow row = some pt →
      jsFalsyNum pt.quantity = false ∧
      pt.tradeDate ≠ "" ∧ 8 ≤ pt.tradeDate.length ∧
      (jsEq pt.buyPrice 0 && jsEq pt.sellPrice 0) = false) := by
  constructor
  · intro row h
    simp [AutoImport.parseGrowwRow, h]
  · intro row pt h
    simp only [AutoImport.parseGrowwRow] at h
    split at h
    · exact Option.noConfusion h
    · split at h <;>
      · split at h
        · exact Option.noConfusion h
        · split at h
          · exact Option.noConfusion h
          · rename_i hdate hgate
            injection h with h
            subst h
            simp only [Bool.or_eq_true, decide_eq_true_eq, not_or,
              Bool.not_eq_true] at hdate hgate
            obtain ⟨⟨hs, hq⟩, hbs⟩ := hgate
            exact ⟨hq, hdate.1, Nat.le_of_not_lt hdate.2, hbs⟩

/-- C4, witness for the amended theorem: a quantity cell of `"0"` is falsy and
forces rejection, and the successful extraction of `rDup` satisfies every
gate conclusion. -/
theorem C4_amended_witness :
    (jsFalsyNum (jsParseFloat (probe [("Quantity", "0")] ["Quantity"] "0")) = true ∧
      AutoImport.parseGrowwRow [("Quantity", "0")] = none) ∧
    (∃ pt, AutoImport.parseGrowwRow rDup = some pt ∧
      (jsFalsyNum pt.quantity = false ∧
       pt.tradeDate ≠ "" ∧ 8 ≤ pt.tradeDate.length ∧
       (jsEq pt.buyPrice 0 && jsEq pt.sellPrice 0) = false)) := by
  constructor
  · exact ⟨by decide, C4_amended.1 [("Quantity", "0")] (by decide)⟩
  · match hpt : AutoImport.parseGrowwRow rDup with
    | some pt => exact ⟨pt, rfl, C4_amended.2 rDup pt hpt⟩
    | none => exact absurd hpt (by decide)

/-! ## Claim C5 — derived per-unit prices -/

/-- C5, counterexample. The claim's condition is "no direct per-unit price
column resolved to a positive number", but the dialog validator derives only
when the direct price is exactly `0`: with `Buy Price = "-5"` (resolved, not
positive), `Buy Value = "10000"` and `Quantity = "100"` the result keeps
`-5` instead of the claimed `10000 ÷ 100 = 100`. -/
theorem C5_counterexample :
    jsGt (PreviewA.buyValueCol rNegDirect) 0 = true ∧
    jsGt (PreviewA.quantityCol rNegDirect) 0 = true ∧
    jsGt (PreviewA.directBuyPrice rNegDirect) 0 = false ∧
    (PreviewA.validateAndParseRow rNegDirect).buyPrice = some ⟨-5, 1⟩ ∧
    jsNumEqv (PreviewA.validateAndParseRow rNegDirect).buyPrice (jsInt 100) = false := by
  decide

/-- C5, amended. The dialog validator derives `value ÷ quantity` when the
aggregate value and quantity are positive and the direct price column resolved
to exactly `0` (which includes an absent column); the format-parameterised
validator's Zerodha branch derives whenever value and quantity are positive,
ignoring the direct column. The spec's scenario holds in both: buyValue 10000
with quantity 100 and no direct buy-price column yields exactly 100. -/
theorem C5_amended :
    (∀ row, (jsGt (PreviewA.buyValueCol row) 0 && jsGt (PreviewA.quantityCol row) 0 &&
        jsEq (PreviewA.directBuyPrice row) 0) = true →
      (PreviewA.validateAndParseRow row).buyPrice =
        jsDiv (PreviewA.buyValueCol row) (PreviewA.quantityCol row)) ∧
    (∀ row, (jsGt (PreviewB.zBuyValue row) 0 && jsGt (PreviewB.zqty row) 0) = true →
      PreviewB.zerodhaBuyPrice row = jsDiv (PreviewB.zBuyValue row) (PreviewB.zqty row)) ∧
    jsNumEqv (PreviewA.validateAndParseRow rDerived).buyPrice (jsInt 100) = true ∧
    jsNumEqv (PreviewB.zerodhaBuyPrice rDerived) (jsInt 100) = true := by
  refine ⟨?_, ?_, by decide, by decide⟩
  · intro row h
    simp [PreviewA.validateAndParseRow, h]
  · intro row h
    simp [PreviewB.zerodhaBuyPrice, h]

/-- C5, witness for the amended theorem at the spec's scenario row. -/
theorem C5_amended_witness :
    ((jsGt (PreviewA.buyValueCol rDerived) 0 && jsGt (PreviewA.quantityCol rDerived) 0 &&
        jsEq (PreviewA.directBuyPrice rDerived) 0) = true ∧
      (PreviewA.validateAndParseRow rDerived).buyPrice =
        jsDiv (PreviewA.buyValueCol rDerived) (PreviewA.quantityCol rDerived)) ∧
    ((jsGt (PreviewB.zBuyValue rDerived) 0 && jsGt (PreviewB.zqty rDerived) 0) = true ∧
      PreviewB.zerodhaBuyPrice rDerived =
        jsDiv (PreviewB.zBuyValue rDerived) (PreviewB.zqty rDerived)) :=
  ⟨⟨by decide, C5_amended.1 rDerived (by decide)⟩,
   ⟨by decide, C5_amended.2.1 rDerived (by decide)⟩⟩

/-! ## Claim C6 — Groww date normalization -/

/-- C6, counterexample. The claim says unparseable dates are rejected, but
`parseDateString` returns its input unchanged when neither shape matches and
the extractor only rejects results shorter than 8 characters: a row with
`Buy date = "not-a-date"` (10 characters, no digits) is accepted with the
verbatim string as its trade date. -/
theorem C6_counterexample :
    parseDateString "not-a-date" = "not-a-date" ∧
    (GrowwImport.parseGrowwRow rBadDate).map ParsedTrade.tradeDate =
      some "not-a-date" := by
  decide

/-- C6, amended. Both claimed shapes normalize as specified and empty dates
are rejected, but an unparseable date string is passed through unchanged and
rejected only when the result is shorter than 8 characters. -/
theorem C6_amended :
    parseDateString "15-03-2024" = "2024-03-15" ∧
    parseDateString "15 Mar 2024" = "2024-03-15" ∧
    (∀ s, jsTrim s ≠ "" → scanDDMMYYYY s.toList = none → scanDMMMYYYY s.toList = none →
      parseDateString s = s) ∧
    (∀ row pt, GrowwImport.parseGrowwRow row = some pt →
      pt.tradeDate ≠ "" ∧ 8 ≤ pt.tradeDate.length) := by
  refine ⟨by decide, by decide, ?_, ?_⟩
  · intro s h1 h2 h3
    have h0 : ¬(s = "") := by
      intro e
      exact h1 (by rw [e]; decide)
    simp only [String.toList] at h2 h3
    simp [parseDateString, h0, h1, h2, h3]
  · intro row pt h
    simp only [GrowwImport.parseGrowwRow] at h
    split at h
    · exact Option.noConfusion h
    · split at h <;>
      · split at h
        · exact Option.noConfusion h
        · split at h
          · exact Option.noConfusion h
          · rename_i hdate hgate
            injection h with h
            subst h
            simp only [Bool.or_eq_true, decide_eq_true_eq, not_or,
              Bool.not_eq_true] at hdate
            exact ⟨hdate.1, Nat.le_of_not_lt hdate.2⟩

/-- C6, witness for the amended theorem: an 8-letter unparseable string passes
through unchanged, and the accepted row `rDup` has a well-formed date. -/
theorem C6_amended_witness :
    (jsTrim "abcdefgh" ≠ "" ∧ scanDDMMYYYY "abcdefgh".toList = none ∧
      scanDMMMYYYY "abcdefgh".toList = none ∧
      parseDateString "abcdefgh" = "abcdefgh") ∧
    (∃ pt, GrowwImport.parseGrowwRow rDup = some pt ∧
      (pt.tradeDate ≠ "" ∧ 8 ≤ pt.tradeDate.length)) := by
  constructor
  · exact ⟨by decide, by decide, by decide,
      C6_amended.2.2.1 "abcdefgh" (by decide) (by decide) (by decide)⟩
  · match hpt : GrowwImport.parseGrowwRow rDup with
    | some pt => exact ⟨pt, rfl, C6_amended.2.2.2 rDup pt hpt⟩
    | none => exact absurd hpt (by decide)

/-! ## Loop invariants shared by the reconciliation claims -/

/-- One Groww loop step preserves "no accepted key lies in the existing set". -/
theorem GrowwImport.groww_step_keys (ex : List String) (st : ImportState) (row : Row)
    (h : ∀ k ∈ st.acceptedKeys, k ∉ ex) :
    ∀ k ∈ (GrowwImport.processRow ex st row).acceptedKeys, k ∉ ex := by
  intro k hk
  rw [GrowwImport.processRow] at hk
  cases hp : GrowwImport.parseGrowwRow row with
  | none =>
    rw [hp] at hk
    exact h k hk
  | some pt =>
    rw [hp] at hk
    simp only [GrowwImport.processParsed] at hk
    by_cases hm : candidateKey pt ∈ ex
    · rw [if_pos hm] at hk
      exact h k hk
    · rw [if_neg hm] at hk
      simp only [List.mem_append, List.mem_singleton] at hk
      rcases hk with hk | hk
      · exact h k hk
      · subst hk; exact hm

/-- The accepted-key invariant folded over a whole Groww batch. -/
theorem GrowwImport.groww_foldl_keys_inv (ex : List String) :
    ∀ (rows : List Row) (st : ImportState),
      (∀ k ∈ st.acceptedKeys, k ∉ ex) →
      ∀ k ∈ (rows.foldl (GrowwImport.processRow ex) st).acceptedKeys, k ∉ ex := by
  intro rows
  induction rows with
  | nil => intro st h; simpa using h
  | cons r rs ih =>
    intro st h
    exact ih (GrowwImport.processRow ex st r) (GrowwImport.groww_step_keys ex st r h)

/-- One auto-detect loop step preserves the accepted-key invariant. -/
theorem AutoImport.auto_step_keys (today : String) (ex : List String) (st : ImportState)
    (row : Row) (h : ∀ k ∈ st.acceptedKeys, k ∉ ex) :
    ∀ k ∈ (AutoImport.processRow today ex st row).acceptedKeys, k ∉ ex := by
  intro k hk
  rw [AutoImport.processRow] at hk
  cases hp : AutoImport.parseRow today row with
  | none =>
    rw [hp] at hk
    exact h k hk
  | some pt =>
    rw [hp] at hk
    simp only [AutoImport.processParsed] at hk
    by_cases hm : candidateKey pt ∈ ex
    · rw [if_pos hm] at hk
      exact h k hk
    · rw [if_neg hm] at hk
      simp only [List.mem_append, List.mem_singleton] at hk
      rcases hk with hk | hk
      · exact h k hk
      · subst hk; exact hm

/-- The accepted-key invariant folded over a whole auto-detect batch. -/
theorem AutoImport.auto_foldl_keys_inv (today : String) (ex : List String) :
    ∀ (rows : List Row) (st : ImportState),
      (∀ k ∈ st.acceptedKeys, k ∉ ex) →
      ∀ k ∈ (rows.foldl (AutoImport.processRow today ex) st).acceptedKeys, k ∉ ex := by
  intro rows
  induction rows with
  | nil => intro st h; simpa using h
  | cons r rs ih =>
    intro st h
    exact ih (AutoImport.processRow today ex st r) (AutoImport.auto_step_keys today ex st r h)

/-- A row whose resolved symbol is a non-data marker is rejected by the Groww
extractor. -/
theorem GrowwImport.parse_marker_none (row : Row)
    (h : GrowwImport.isNonDataSymbol (GrowwImport.growwSymbol row) = true) :
    GrowwImport.parseGrowwRow row = none := by
  simp [GrowwImport.parseGrowwRow, h]

/-- A rejected row leaves the Groww loop state untouched. -/
theorem GrowwImport.step_none (ex : List String) (st : ImportState) (row : Row)
    (h : GrowwImport.parseGrowwRow row = none) :
    GrowwImport.processRow ex st row = st := by
  rw [GrowwImport.processRow, h]
  rfl

/-- A batch of only marker rows leaves the Groww loop state untouched. -/
theorem GrowwImport.run_all_marker (ex : List String) :
    ∀ (rows : List Row) (st : ImportState),
      (∀ row ∈ rows, GrowwImport.isNonDataSymbol (GrowwImport.growwSymbol row) = true) →
      rows.foldl (GrowwImport.processRow ex) st = st := by
  intro rows
  induction rows with
  | nil => intro st _; rfl
  | cons r rs ih =>
    intro st h
    simp only [List.foldl_cons]
    rw [GrowwImport.step_none ex st r
      (GrowwImport.parse_marker_none r (h r (by simp)))]
    exact ih st (fun row hrow => h row (by simp [hrow]))

/-- One auto-detect step adds one to the error counter exactly when both
extractors reject the row, and leaves it unchanged otherwise. -/
theorem AutoImport.step_errors (today : String) (ex : List String) (st : ImportState)
    (row : Row) :
    (AutoImport.processRow today ex st row).errors =
      st.errors + (if (AutoImport.parseRow today row).isNone then 1 else 0) := by
  rw [AutoImport.processRow]
  cases hp : AutoImport.parseRow today row with
  | none => simp [AutoImport.processParsed]
  | some pt =>
    simp only [AutoImport.processParsed, Option.isNone_some, Bool.false_eq_true,
      if_false, Nat.add_zero]
    by_cases hm : candidateKey pt ∈ ex
    · rw [if_pos hm]
    · rw [if_neg hm]

/-- The auto-detect loop's error counter counts exactly the rows rejected by
both extractors. -/
theorem AutoImport.errors_count (today : String) (ex : List String) :
    ∀ (rows : List Row) (st : ImportState),
      (rows.foldl (AutoImport.processRow today ex) st).errors =
        st.errors + (rows.filter (fun row => (AutoImport.parseRow today row).isNone)).length := by
  intro rows
  induction rows with
  | nil => intro st; simp
  | cons r rs ih =>
    intro st
    simp only [List.foldl_cons, List.filter_cons]
    rw [ih]
    rw [AutoImport.step_errors]
    cases hr : (AutoImport.parseRow today r).isNone
    · simp [hr]
    · simp [hr]
      omega

/-- One Groww step preserves `withPnL + withoutPnL = accepted count`. -/
theorem GrowwImport.groww_step_pnl (ex : List String) (st : ImportState) (row : Row)
    (h : st.withPnL + st.withoutPnL = st.transformed.length) :
    (GrowwImport.processRow ex st row).withPnL +
      (GrowwImport.processRow ex st row).withoutPnL =
      (GrowwImport.processRow ex st row).transformed.length := by
  rw [GrowwImport.processRow]
  cases hp : GrowwImport.parseGrowwRow row with
  | none => simpa [GrowwImport.processParsed] using h
  | some pt =>
    simp only [GrowwImport.processParsed]
    by_cases hm : candidateKey pt ∈ ex
    · rw [if_pos hm]
      simpa using h
    · rw [if_neg hm]
      cases hP : hasPnLOf pt.pnl <;> simp [hP, List.length_append] <;> omega

/-- The counter invariant folded over a whole Groww batch. -/
theorem GrowwImport.groww_pnl_sum_inv (ex : List String) :
    ∀ (rows : List Row) (st : ImportState),
      st.withPnL + st.withoutPnL = st.transformed.length →
      (rows.foldl (GrowwImport.processRow ex) st).withPnL +
        (rows.foldl (GrowwImport.processRow ex) st).withoutPnL =
        (rows.foldl (GrowwImport.processRow ex) st).transformed.length := by
  intro rows
  induction rows with
  | nil => intro st h; simpa using h
  | cons r rs ih =>
    intro st h
    exact ih (GrowwImport.processRow ex st r) (GrowwImport.groww_step_pnl ex st r h)

/-- One auto-detect step preserves the counter invariant. -/
theorem AutoImport.auto_step_pnl (today : String) (ex : List String) (st : ImportState)
    (row : Row) (h : st.withPnL + st.withoutPnL = st.transformed.length) :
    (AutoImport.processRow today ex st row).withPnL +
      (AutoImport.processRow today ex st row).withoutPnL =
      (AutoImport.processRow today ex st row).transformed.length := by
  rw [AutoImport.processRow]
  cases hp : AutoImport.parseRow today row with
  | none => simpa [AutoImport.processParsed] using h
  | some pt =>
    simp only [AutoImport.processParsed]
    by_cases hm : candidateKey pt ∈ ex
    · rw [if_pos hm]
      simpa using h
    · rw [if_neg hm]
      cases hP : hasPnLOf pt.pnl <;> simp [hP, List.length_append] <;> omega

/-- The counter invariant folded over a whole auto-detect batch. -/
theorem AutoImport.auto_pnl_sum_inv (today : String) (ex : List String) :
    ∀ (rows : List Row) (st : ImportState),
      st.withPnL + st.withoutPnL = st.transformed.length →
      (rows.foldl (AutoImport.processRow today ex) st).withPnL +
        (rows.foldl (AutoImport.processRow today ex) st).withoutPnL =
        (rows.foldl (AutoImport.processRow today ex) st).transformed.length := by
  intro rows
  induction rows with
  | nil => intro st h; simpa using h
  | cons r rs ih =>
    intro st h
    exact ih (AutoImport.processRow today ex st r) (AutoImport.auto_step_pnl today ex st r h)

/-! ## Claim C1 — duplicate reconciliation -/

/-- C1, counterexample. The loops never add an accepted key to the membership
test, so a batch containing the same valid row twice accepts both copies —
both accepted trades carry the identity key `ABC_2024-03-15_100_10` — and
counts nothing as skipped, contradicting "only the first is accepted and the
second is counted as skipped". -/
theorem C1_counterexample :
    (GrowwImport.run [] [rDup, rDup]).transformed.length = 2 ∧
    (GrowwImport.run [] [rDup, rDup]).skipped = 0 ∧
    (GrowwImport.run [] [rDup, rDup]).acceptedKeys =
      ["ABC_2024-03-15_100_10", "ABC_2024-03-15_100_10"] := by
  decide

/-- C1, amended. Deduplication holds only against the pre-fetched existing
keys: no accepted trade's identity key lies in that set (both handlers), and a
candidate whose key is already stored is skipped and counted — but the batch
does not self-deduplicate, as the counterexample shows. -/
theorem C1_amended :
    (∀ ex rows k, k ∈ (GrowwImport.run ex rows).acceptedKeys → k ∉ ex) ∧
    (∀ today ex rows k, k ∈ (AutoImport.run today ex rows).acceptedKeys → k ∉ ex) ∧
    (GrowwImport.run ["ABC_2024-03-15_100_10"] [rDup]).skipped = 1 ∧
    (GrowwImport.run ["ABC_2024-03-15_100_10"] [rDup]).transformed = [] := by
  refine ⟨?_, ?_, by decide, by decide⟩
  · intro ex rows k hk
    refine GrowwImport.groww_foldl_keys_inv ex rows {} ?_ k hk
    intro k hk
    simp at hk
  · intro today ex rows k hk
    refine AutoImport.auto_foldl_keys_inv today ex rows {} ?_ k hk
    intro k hk
    simp at hk

/-- C1, witness for the amended theorem: the key accepted from `rDup` is not
in the (disjoint) pre-fetched set `["X"]`. -/
theorem C1_amended_witness :
    "ABC_2024-03-15_100_10" ∈ (GrowwImport.run ["X"] [rDup]).acceptedKeys ∧
    "ABC_2024-03-15_100_10" ∉ ["X"] :=
  ⟨by decide, C1_amended.1 ["X"] [rDup] "ABC_2024-03-15_100_10" (by decide)⟩

/-! ## Claim C2 — silent skip of non-data rows -/

/-- C2, counterexample. In the auto-detect handler a batch consisting of the
single non-data marker row `Symbol = "Summary"` yields `errors = 1`, not the
claimed `errors = 0`: rows rejected by both extractors — marker rows
included — are pushed onto `errorDetails` and counted. -/
theorem C2_counterexample :
    AutoImport.isZerodhaMarker "Summary" = true ∧
    (AutoImport.report "2024-01-01" [] [rSummary]).imported = 0 ∧
    (AutoImport.report "2024-01-01" [] [rSummary]).errors = 1 := by
  decide

/-- C2, amended. The standalone Groww handler silently skips non-data rows: a
batch of only marker rows reports zero imported and zero errors. The
auto-detect handler instead counts every row rejected by both extractors —
non-data marker rows included — toward the error tally. -/
theorem C2_amended :
    (∀ ex rows,
      (∀ row ∈ rows, GrowwImport.isNonDataSymbol (GrowwImport.growwSymbol row) = true) →
      (GrowwImport.report ex rows).imported = 0 ∧
      (GrowwImport.report ex rows).errors = 0 ∧
      (GrowwImport.run ex rows).transformed = []) ∧
    (∀ today ex rows,
      (AutoImport.run today ex rows).errors =
        (rows.filter (fun row => (AutoImport.parseRow today row).isNone)).length) := by
  constructor
  · intro ex rows h
    have hrun : rows.foldl (GrowwImport.processRow ex) {} = {} :=
      GrowwImport.run_all_marker ex rows {} h
    refine ⟨?_, ?_, ?_⟩ <;> simp [GrowwImport.report, GrowwImport.run, hrun]
  · intro today ex rows
    simpa using AutoImport.errors_count today ex rows {}

/-- C2, witness for the amended theorem: the one-row marker batch satisfies
the hypothesis, and the Groww handler reports it with zero imported and zero
errors. -/
theorem C2_amended_witness :
    (∀ row ∈ [rSummary],
      GrowwImport.isNonDataSymbol (GrowwImport.growwSymbol row) = true) ∧
    ((GrowwImport.report [] [rSummary]).imported = 0 ∧
     (GrowwImport.report [] [rSummary]).errors = 0 ∧
     (GrowwImport.run [] [rSummary]).transformed = []) :=
  ⟨by decide, C2_amended.1 [] [rSummary] (by decide)⟩

/-! ## Claim C10 — the P&L counter partition -/

/-- C10, confirmed. In both import handlers the returned report satisfies
`withPnL + withoutPnL = imported`: each accepted trade bumps exactly one of
the two counters, skipped and error rows bump neither, and the zero-accepted
response branch hard-codes all three to zero. -/
theorem C10_report_partition :
    (∀ ex rows,
      (GrowwImport.report ex rows).withPnL + (GrowwImport.report ex rows).withoutPnL =
        (GrowwImport.report ex rows).imported) ∧
    (∀ today ex rows,
      (AutoImport.report today ex rows).withPnL + (AutoImport.report today ex rows).withoutPnL =
        (AutoImport.report today ex rows).imported) := by
  constructor
  · intro ex rows
    have h := GrowwImport.groww_pnl_sum_inv ex rows {} (by rfl)
    simp only [GrowwImport.report, GrowwImport.run]
    split
    · simp
    · exact h
  · intro today ex rows
    have h := AutoImport.auto_pnl_sum_inv today ex rows {} (by rfl)
    simp only [AutoImport.report, AutoImport.run]
    split
    · simp
    · exact h

/-! ## Claim C7 — position type and the TCS scenario -/

/-- C7, counterexample. The spec's scenario row (`TCS`, quantity 10, buy 3400,
sell 3450, realised P&L 500, no date column) is rejected by both extractors of
the auto-detect handler — the Zerodha tradebook branch finds no trade-date
column and its alias lists do not include `Buy Price`/`Realised P&L`, and the
Groww branch finds no buy/sell date — so the row produces no NormalizedTrade
at all and is recorded as an error. -/
theorem C7_counterexample :
    AutoImport.parseRow "2024-05-01" rTCS = none ∧
    (AutoImport.report "2024-05-01" [] [rTCS]).imported = 0 ∧
    (AutoImport.report "2024-05-01" [] [rTCS]).errors = 1 := by
  decide

/-- C7, amended. The round-trip comparison (`long` iff buyPrice < sellPrice)
applies exactly when the parsed `tradeType` is `"both"` (aggregate P&L rows
and Groww rows with both prices positive), not whenever both prices are
positive; otherwise the direction hint decides (`sell`/`short` ⇒ short, else
long). The scenario row itself is rejected on any import day: it yields
imported = 0 and errors = 1. -/
theorem C7_amended :
    (∀ bp sp, AutoImport.computePositionType "both" bp sp =
      if jsLt bp sp then "long" else "short") ∧
    (∀ ht bp sp, ht ≠ "both" →
      AutoImport.computePositionType ht bp sp =
        if (jsIncludes ht "sell" || jsIncludes ht "short") = true then "short"
        else "long") ∧
    (∀ today, AutoImport.parseRow today rTCS = none) ∧
    (∀ today ex, (AutoImport.report today ex [rTCS]).imported = 0 ∧
      (AutoImport.report today ex [rTCS]).errors = 1) := by
  refine ⟨?_, ?_, fun today => rfl, fun today ex => ⟨rfl, rfl⟩⟩
  · intro bp sp
    simp [AutoImport.computePositionType]
  · intro ht bp sp h
    simp [AutoImport.computePositionType, h]

/-- C7, witness for the amended theorem: the hint path at a concrete non-both
hint, and the scenario row on a concrete day. -/
theorem C7_amended_witness :
    (("buy" : String) ≠ "both" ∧
      AutoImport.computePositionType "buy" (jsInt 3400) (jsInt 3450) =
        if (jsIncludes "buy" "sell" || jsIncludes "buy" "short") = true then "short"
        else "long") ∧
    ((AutoImport.report "2024-05-01" ["K"] [rTCS]).imported = 0 ∧
      (AutoImport.report "2024-05-01" ["K"] [rTCS]).errors = 1) :=
  ⟨⟨by decide, C7_amended.2.1 "buy" (jsInt 3400) (jsInt 3450) (by decide)⟩,
   C7_amended.2.2.2 "2024-05-01" ["K"]⟩

/-! ## Claim C8 — completed-order filter and best-effort positions -/

/-- C8, confirmed. The sync includes a fetched order iff its status is
`COMPLETE` and its filled quantity is positive (an OPEN order with positive
filled quantity is dropped), and a failed positions fetch changes nothing but
the attached P&L: the same trades are produced, all with `profit_loss`
unset. -/
theorem C8_sync_filter :
    (∀ orders o, o ∈ Sync.filterCompleted orders ↔
      (o ∈ orders ∧ o.status = "COMPLETE" ∧ jsGt o.filled_quantity 0 = true)) ∧
    Sync.filterCompleted [openOrder] = [] ∧
    (∀ allOrders existingIds ps,
      (Sync.syncTrades allOrders none existingIds).map Sync.stripPnL =
        (Sync.syncTrades allOrders (some ps) existingIds).map Sync.stripPnL) ∧
    (∀ allOrders existingIds r, r ∈ Sync.syncTrades allOrders none existingIds →
      r.profit_loss = none) := by
  refine ⟨?_, by decide, ?_, ?_⟩
  · intro orders o
    simp [Sync.filterCompleted, List.mem_filter, and_assoc]
  · intro allOrders existingIds ps
    simp only [Sync.syncTrades, List.map_map]
    rfl
  · intro allOrders existingIds r hr
    simp only [Sync.syncTrades, List.mem_map] at hr
    obtain ⟨zt, hzt, rfl⟩ := hr
    rfl

/-- C8, witness: a two-order fetch keeps only the COMPLETE order, and with the
positions fetch failed its record carries no P&L. -/
theorem C8_sync_filter_witness :
    (openOrder ∈ [openOrder, completeOrder] ∧ completeOrder ∈ [openOrder, completeOrder]) ∧
    (completeOrder ∈ Sync.filterCompleted [openOrder, completeOrder] ↔
      (completeOrder ∈ [openOrder, completeOrder] ∧ completeOrder.status = "COMPLETE" ∧
        jsGt completeOrder.filled_quantity 0 = true)) ∧
    (∃ r, r ∈ Sync.syncTrades [openOrder, completeOrder] none [] ∧ r.profit_loss = none) := by
  refine ⟨⟨by decide, by decide⟩,
    (C8_sync_filter.1 [openOrder, completeOrder] completeOrder), ?_⟩
  match hr : Sync.syncTrades [openOrder, completeOrder] none [] with
  | [] => exact absurd hr (by decide)
  | r :: rest =>
    refine ⟨r, by simp [hr], ?_⟩
    exact C8_sync_filter.2.2.2 [openOrder, completeOrder] [] r (by simp [hr])

/-! ## Claim C9 — aggregate rows are stamped with the import day -/

/-- String concatenation acts as list concatenation on the underlying
characters. -/
theorem string_data_append (a b : String) : (a ++ b).data = a.data ++ b.data := by
  cases a
  cases b
  rfl

/-- Two identity keys built from the same symbol, prices and quantity but
different trade dates are different strings. -/
theorem mkTradeKey_date_inj (s d₁ d₂ : String) (e q : JSNum)
    (h : mkTradeKey s d₁ e q = mkTradeKey s d₂ e q) : d₁ = d₂ := by
  unfold mkTradeKey at h
  have h' := congrArg String.data h
  simp only [string_data_append, List.append_assoc] at h'
  have h2 : d₁.data ++ ("_".data ++ ((jsNumToString e).data ++ ("_".data ++ (jsNumToString q).data))) =
      d₂.data ++ ("_".data ++ ((jsNumToString e).data ++ ("_".data ++ (jsNumToString q).data))) :=
    List.append_cancel_left (List.append_cancel_left h')
  have h3 : d₁.data = d₂.data := List.append_cancel_right h2
  cases d₁
  cases d₂
  exact congrArg String.mk h3

/-- C9, confirmed. A row matching the aggregate P&L-report shape parses
successfully on any day, its trade date is the current date passed to the
handler, and running the same row on two different days yields two different
identity keys — so the duplicate check cannot recognize the re-import. -/
theorem C9_aggregate_date (row : Row) (d₁ d₂ : String)
    (hmk : AutoImport.isZerodhaMarker (AutoImport.zSymbol row) = false)
    (hb : jsGt (AutoImport.zBuyValue row) 0 = true)
    (hs : jsGt (AutoImport.zSellValue row) 0 = true)
    (hq : jsGt (AutoImport.zQuantity row) 0 = true)
    (hd : d₁ ≠ d₂) :
    ∃ t₁ t₂,
      AutoImport.parseZerodhaRow d₁ row = some t₁ ∧
      AutoImport.parseZerodhaRow d₂ row = some t₂ ∧
      t₁.tradeDate = d₁ ∧ t₂.tradeDate = d₂ ∧
      candidateKey t₁ ≠ candidateKey t₂ := by
  have hparse : ∀ d, AutoImport.parseZerodhaRow d row =
      some { symbol := AutoImport.zSymbol row, tradeDate := d,
             quantity := AutoImport.zQuantity row,
             buyPrice := jsDiv (AutoImport.zBuyValue row) (AutoImport.zQuantity row),
             sellPrice := jsDiv (AutoImport.zSellValue row) (AutoImport.zQuantity row),
             pnl := AutoImport.zRealizedPnL row, tradeType := "both",
             category := determineCategory (AutoImport.zSymbol row),
             broker := "zerodha" } := by
    intro d
    simp only [AutoImport.parseZerodhaRow]
    rw [if_neg (by simp [hmk]), if_pos (by simp [hb, hs, hq])]
  refine ⟨_, _, hparse d₁, hparse d₂, rfl, rfl, ?_⟩
  intro hkey
  simp only [candidateKey, entryPriceOf] at hkey
  exact hd (mkTradeKey_date_inj _ _ _ _ _ hkey)

/-- C9, witness: the concrete aggregate row `rAgg` imported on two concrete
days yields two distinct identity keys. -/
theorem C9_aggregate_date_witness :
    (AutoImport.isZerodhaMarker (AutoImport.zSymbol rAgg) = false ∧
     jsGt (AutoImport.zBuyValue rAgg) 0 = true ∧
     jsGt (AutoImport.zSellValue rAgg) 0 = true ∧
     jsGt (AutoImport.zQuantity rAgg) 0 = true ∧
     ("2024-01-01" : String) ≠ "2024-01-02") ∧
    (∃ t₁ t₂,
      AutoImport.parseZerodhaRow "2024-01-01" rAgg = some t₁ ∧
      AutoImport.parseZerodhaRow "2024-01-02" rAgg = some t₂ ∧
      t₁.tradeDate = "2024-01-01" ∧ t₂.tradeDate = "2024-01-02" ∧
      candidateKey t₁ ≠ candidateKey t₂) :=
  ⟨⟨by decide, by decide, by decide, by decide, by decide⟩,
   C9_aggregate_date rAgg "2024-01-01" "2024-01-02" (by decide) (by decide)
     (by decide) (by decide) (by decide)⟩

end TradeFlow
